import Mathlib

/-!
Shallow embedding of `pkg/plugins/utilities.go` from the stripe-cli plugin
management package, together with theorems settling the spec claims about
the catalog reconciler, the archive extractor, the catalog loader and the
by-name lookup.

File bytes are modelled as `List Nat`; the TOML decoder and the binary
digest function are external collaborators (the `toml` library and the
checksum routine live outside this file), so they are passed as explicit
function parameters.
-/

namespace StripeCliPlugins

/-- One published release of a plugin: `Version` string and the expected
integrity digest `Sum` for the current platform (Go struct `Release`). -/
structure Release where
  Version : String
  Sum : Nat
  deriving Repr, DecidableEq

/-- One plugin entry of the catalog: `Shortname` and its ordered list of
releases (Go struct `Plugin`). -/
structure Plugin where
  Shortname : String
  Releases : List Release
  deriving Repr, DecidableEq

/-- The catalog document `plugins.toml` deserializes to (Go struct
`PluginList`). -/
structure PluginList where
  Plugins : List Plugin
  deriving Repr, DecidableEq

/-- The persistent state the pipeline mutates: the local plugin manifest
file (`none` when the file does not exist), the `installed_plugins`
config field, and the plugin binaries written to the plugins directory
(recorded as shortname paired with the written bytes). -/
structure ConfigState where
  pluginManifest : Option PluginList
  installedPlugins : List String
  binaries : List (String × List Nat)
  deriving Repr, DecidableEq

/-! ## AddEntryToPluginManifest (utilities.go lines 136-193) -/

/-- The `for i, plugin := range currentPluginList.Plugins` loop of
`AddEntryToPluginManifest`: on the first plugin whose `Shortname` equals
the entry's, append `entry.Releases[0]` to its release list and stop
(`break`). Returns the updated list and the `foundPlugin` flag; `none`
models the Go runtime panic when `entry.Releases[0]` is evaluated on an
empty release list. -/
def appendFirstMatch (entry : Plugin) : List Plugin → Option (List Plugin × Bool)
  | [] => some ([], false)
  | p :: ps =>
    if p.Shortname = entry.Shortname then
      match entry.Releases.head? with
      | none => none
      | some r => some ({ p with Releases := p.Releases ++ [r] } :: ps, true)
    else
      match appendFirstMatch entry ps with
      | none => none
      | some (qs, found) => some (p :: qs, found)

/-- Pure core of `AddEntryToPluginManifest` on the manifest file: a missing
file (`os.Stat` error) leaves `currentPluginList` at its zero value, i.e.
the empty catalog; then the first-match append loop runs, and when no
plugin matched the whole `entry` is appended. `none` models the
`entry.Releases[0]` panic. -/
def addEntryToPluginManifest (entry : Plugin) (store : Option PluginList) :
    Option PluginList :=
  let currentPluginList := store.getD ⟨[]⟩
  match appendFirstMatch entry currentPluginList.Plugins with
  | none => none
  | some (ps, found) =>
    some ⟨if found then ps else ps ++ [entry]⟩

/-- The installed-index update of `AddEntryToPluginManifest` (lines
174-190): scan `installedList` for the entry's shortname and append it only
when absent. -/
def updateInstalledList (shortname : String) (installedList : List String) :
    List String :=
  if installedList.contains shortname then installedList
  else installedList ++ [shortname]

/-- `AddEntryToPluginManifest` as a transformer of the persistent state:
rewrites the manifest file and syncs the `installed_plugins` field. `none`
models the `entry.Releases[0]` panic, which in Go fires before any write
happens, leaving the state unchanged. -/
def addEntryState (entry : Plugin) (st : ConfigState) : Option ConfigState :=
  match addEntryToPluginManifest entry st.pluginManifest with
  | none => none
  | some pl =>
    some { st with
      pluginManifest := some pl
      installedPlugins := updateInstalledList entry.Shortname st.installedPlugins }

/-! ### Reconciler lemmas -/

theorem appendFirstMatch_no_match (entry : Plugin) (ps : List Plugin)
    (h : ∀ q ∈ ps, q.Shortname ≠ entry.Shortname) :
    appendFirstMatch entry ps = some (ps, false) := by
  induction ps with
  | nil => rfl
  | cons p ps ih =>
    have hp : p.Shortname ≠ entry.Shortname := h p (List.mem_cons_self p ps)
    have hrest : ∀ q ∈ ps, q.Shortname ≠ entry.Shortname :=
      fun q hq => h q (List.mem_cons_of_mem p hq)
    simp [appendFirstMatch, hp, ih hrest]

theorem appendFirstMatch_first (entry : Plugin) (pre : List Plugin) (p : Plugin)
    (post : List Plugin) (r : Release)
    (hr : entry.Releases.head? = some r)
    (hp : p.Shortname = entry.Shortname)
    (hpre : ∀ q ∈ pre, q.Shortname ≠ entry.Shortname) :
    appendFirstMatch entry (pre ++ p :: post) =
      some (pre ++ { p with Releases := p.Releases ++ [r] } :: post, true) := by
  induction pre with
  | nil => simp [appendFirstMatch, hp, hr]
  | cons q pre ih =>
    have hq : q.Shortname ≠ entry.Shortname := hpre q (List.mem_cons_self q pre)
    have hrest : ∀ q' ∈ pre, q'.Shortname ≠ entry.Shortname :=
      fun q' h' => hpre q' (List.mem_cons_of_mem q h')
    simp [appendFirstMatch, hq, ih hrest]

/-- C3: reconciling an entry carrying release `r'` into a catalog whose
unique plugin named `entry.Shortname` sits between `pre` and `post`
appends `r'` at the end of that plugin's release list and leaves every
other plugin untouched. -/
theorem C3_reconcile_appends_release (entry : Plugin) (pre : List Plugin)
    (p : Plugin) (post : List Plugin) (r' : Release)
    (hr : entry.Releases.head? = some r')
    (hp : p.Shortname = entry.Shortname)
    (hpre : ∀ q ∈ pre, q.Shortname ≠ entry.Shortname) :
    addEntryToPluginManifest entry (some ⟨pre ++ p :: post⟩) =
      some ⟨pre ++ { p with Releases := p.Releases ++ [r'] } :: post⟩ := by
  simp [addEntryToPluginManifest, appendFirstMatch_first entry pre p post r' hr hp hpre]

theorem C3_reconcile_appends_release_witness :
    addEntryToPluginManifest ⟨"hello", [⟨"1.1.0", 7⟩]⟩
        (some ⟨[⟨"other", []⟩, ⟨"hello", [⟨"1.0.0", 5⟩]⟩]⟩) =
      some ⟨[⟨"other", []⟩, ⟨"hello", [⟨"1.0.0", 5⟩, ⟨"1.1.0", 7⟩]⟩]⟩ := by
  have h := C3_reconcile_appends_release ⟨"hello", [⟨"1.1.0", 7⟩]⟩
    [⟨"other", []⟩] ⟨"hello", [⟨"1.0.0", 5⟩]⟩ [] ⟨"1.1.0", 7⟩
    (by decide)
    (by decide)
    (by intro q hq; simp at hq; subst hq; decide)
  simpa using h

/-- C4: when no plugin of the catalog carries the entry's name, reconciling
an entry whose release list is exactly `[r]` appends the entry as one new
catalog row holding exactly that release; a missing manifest file is
treated as the empty catalog, yielding the one-entry catalog. -/
theorem C4_reconcile_inserts_new (entry : Plugin) (C : PluginList) (r : Release)
    (hrel : entry.Releases = [r])
    (habsent : ∀ q ∈ C.Plugins, q.Shortname ≠ entry.Shortname) :
    addEntryToPluginManifest entry (some C) = some ⟨C.Plugins ++ [entry]⟩ ∧
      addEntryToPluginManifest entry none = some ⟨[entry]⟩ ∧
      entry.Releases = [r] := by
  refine ⟨?_, ?_, hrel⟩
  · simp [addEntryToPluginManifest, appendFirstMatch_no_match entry C.Plugins habsent]
  · simp [addEntryToPluginManifest, appendFirstMatch]

theorem C4_reconcile_inserts_new_witness :
    addEntryToPluginManifest ⟨"hello", [⟨"1.0.0", 5⟩]⟩
        (some ⟨[⟨"other", [⟨"2.0.0", 9⟩]⟩]⟩) =
      some ⟨[⟨"other", [⟨"2.0.0", 9⟩]⟩, ⟨"hello", [⟨"1.0.0", 5⟩]⟩]⟩ ∧
    addEntryToPluginManifest ⟨"hello", [⟨"1.0.0", 5⟩]⟩ none =
      some ⟨[⟨"hello", [⟨"1.0.0", 5⟩]⟩]⟩ ∧
    Plugin.Releases ⟨"hello", [⟨"1.0.0", 5⟩]⟩ = [⟨"1.0.0", 5⟩] := by
  have h := C4_reconcile_inserts_new ⟨"hello", [⟨"1.0.0", 5⟩]⟩
    ⟨[⟨"other", [⟨"2.0.0", 9⟩]⟩]⟩ ⟨"1.0.0", 5⟩
    (by decide)
    (by intro q hq; simp at hq; subst hq; decide)
  simpa using h

/-! ## extractFromTarball (utilities.go lines 296-351) -/

/-- `tar.TypeReg` is the byte `'0'`. -/
def tarTypeReg : Nat := 48

/-- `tar.TypeDir` is the byte `'5'`. -/
def tarTypeDir : Nat := 53

/-- `tar.TypeSymlink` is the byte `'2'`. -/
def tarTypeSymlink : Nat := 50

/-- One archive entry as the tar reader yields it: header name, header
typeflag byte, and the entry's bytes. -/
structure TarEntry where
  Name : String
  Typeflag : Nat
  contents : List Nat
  deriving Repr, DecidableEq

/-- `strings.Contains` on the character lists of the two strings. -/
def stringContains (s pat : String) : Bool :=
  s.data.tails.any (fun t => pat.data.isPrefixOf t)

/-- The two payloads the scan loop accumulates: the parsed `manifest`
(zero value `PluginList{}` until a fragment parses) and the captured
`pluginData` bytes (`nil`, i.e. length 0, until a binary entry is seen). -/
structure ScanState where
  manifest : PluginList
  pluginData : List Nat
  deriving Repr, DecidableEq

/-- Errors `extractFromTarball` returns (checksum failure modelled from the
spec's `IntegrityError`). -/
inductive ExtractErr where
  | tomlErr (msg : String)
  | unrecognizedType (name : String) (typeflag : Nat)
  | missingManifestOrPlugin
  | integrityErr
  deriving Repr, DecidableEq

/-- The body of the `for { header, err := tarReader.Next() ... }` loop for
one entry: directories are skipped, a regular file named exactly
`manifest.toml` is TOML-decoded into `manifest` (a decode error aborts),
a regular file whose name contains `stripe-cli-` has its bytes captured
into `pluginData`, any other regular file falls through, and any other
typeflag aborts with the `unrecognized file type` error carrying the
entry's name and typeflag. -/
def processEntry (decode : List Nat → Except String PluginList)
    (st : ScanState) (e : TarEntry) : Except ExtractErr ScanState :=
  if e.Typeflag = tarTypeDir then .ok st
  else if e.Typeflag = tarTypeReg then
    if e.Name = "manifest.toml" then
      match decode e.contents with
      | .error msg => .error (.tomlErr msg)
      | .ok pl => .ok { st with manifest := pl }
    else if stringContains e.Name "stripe-cli-" then
      .ok { st with pluginData := e.contents }
    else .ok st
  else .error (.unrecognizedType e.Name e.Typeflag)

/-- The whole scan loop, entry by entry until end of stream, stopping at
the first error. -/
def scanEntries (decode : List Nat → Except String PluginList) :
    List TarEntry → ScanState → Except ExtractErr ScanState
  | [], st => .ok st
  | e :: es, st =>
    match processEntry decode st e with
    | .error err => .error err
    | .ok st' => scanEntries decode es st'

/-- The scan state at loop entry: zero-value manifest, nil plugin bytes. -/
def initScanState : ScanState := ⟨⟨[]⟩, []⟩

/-- Modelled from the spec: `verifychecksumAndSavePlugin` is not among the
provided sources (only its call site is), so per §4.5 of the spec it looks
up the expected integrity digest from the release selected by `version`,
computes the digest of the binary bytes with the external digest function,
fails with `IntegrityError` on mismatch writing nothing, and on match
writes the binary into the plugins directory. -/
def verifychecksumAndSavePlugin (digestFn : List Nat → Nat) (plugin : Plugin)
    (pluginData : List Nat) (version : String) (st : ConfigState) :
    Except ExtractErr ConfigState :=
  match plugin.Releases.find? (fun r => r.Version = version) with
  | none => .error .integrityErr
  | some rel =>
    if digestFn pluginData = rel.Sum then
      .ok { st with binaries := st.binaries ++ [(plugin.Shortname, pluginData)] }
    else .error .integrityErr

/-- How one run of `extractFromTarball` ends: normal return `nil`, an
error return, or a Go runtime panic from an out-of-bounds slice index. -/
inductive Outcome where
  | ok
  | err (e : ExtractErr)
  | indexOutOfRange
  deriving Repr, DecidableEq

/-- `extractFromTarball`: run the scan loop; then, iff the parsed manifest
holds exactly one plugin and the captured bytes are non-empty, reconcile
that plugin into the manifest file (`AddEntryToPluginManifest`) and hand
the bytes to the checksum-verify-and-save step at
`plugin.Releases[0].Version`; otherwise return the
`missing required manifest.toml or plugin in the archive` error. The
returned state is whatever had been persisted when the run ended. -/
def extractFromTarball (decode : List Nat → Except String PluginList)
    (digestFn : List Nat → Nat) (entries : List TarEntry) (st : ConfigState) :
    ConfigState × Outcome :=
  match scanEntries decode entries initScanState with
  | .error e => (st, .err e)
  | .ok sc =>
    if sc.manifest.Plugins.length = 1 ∧ 0 < sc.pluginData.length then
      match sc.manifest.Plugins.head? with
      | none => (st, .indexOutOfRange)
      | some plugin =>
        match addEntryState plugin st with
        | none => (st, .indexOutOfRange)
        | some st1 =>
          match plugin.Releases.head? with
          | none => (st1, .indexOutOfRange)
          | some r0 =>
            match verifychecksumAndSavePlugin digestFn plugin sc.pluginData
                r0.Version st1 with
            | .error e => (st1, .err e)
            | .ok st2 => (st2, .ok)
    else (st, .err .missingManifestOrPlugin)

/-! ### Extractor lemmas -/

theorem scanEntries_append (decode : List Nat → Except String PluginList)
    (pre rest : List TarEntry) (st : ScanState) :
    scanEntries decode (pre ++ rest) st =
      match scanEntries decode pre st with
      | .error e => .error e
      | .ok st1 => scanEntries decode rest st1 := by
  induction pre generalizing st with
  | nil => simp [scanEntries]
  | cons e es ih =>
    cases h : processEntry decode st e with
    | error err => simp [scanEntries, h]
    | ok st' => simp [scanEntries, h, ih]

theorem addEntryState_spec (entry : Plugin) (st st' : ConfigState)
    (h : addEntryState entry st = some st') :
    st'.binaries = st.binaries ∧
    st'.installedPlugins = updateInstalledList entry.Shortname st.installedPlugins := by
  cases hm : addEntryToPluginManifest entry st.pluginManifest with
  | none => simp [addEntryState, hm] at h
  | some pl =>
    simp [addEntryState, hm] at h
    subst h
    exact ⟨rfl, rfl⟩

theorem updateInstalledList_mem (shortname : String) (l : List String) :
    shortname ∈ updateInstalledList shortname l := by
  unfold updateInstalledList
  split
  · next hc => exact List.mem_of_elem_eq_true hc
  · simp

/-- C5: per-entry classification of the scan loop: directories are
skipped, a regular `manifest.toml` is decoded as the fragment, a regular
file containing `stripe-cli-` in its name is captured verbatim, any other
regular file is ignored, and any other entry type fails with the
unrecognized-type error carrying the entry's name and typeflag. -/
theorem C5_entry_classification (decode : List Nat → Except String PluginList)
    (st : ScanState) (e : TarEntry) :
    (e.Typeflag = tarTypeDir → processEntry decode st e = .ok st) ∧
    (e.Typeflag = tarTypeReg → e.Name = "manifest.toml" →
      processEntry decode st e =
        match decode e.contents with
        | .error msg => .error (.tomlErr msg)
        | .ok pl => .ok { st with manifest := pl }) ∧
    (e.Typeflag = tarTypeReg → e.Name ≠ "manifest.toml" →
      stringContains e.Name "stripe-cli-" = true →
      processEntry decode st e = .ok { st with pluginData := e.contents }) ∧
    (e.Typeflag = tarTypeReg → e.Name ≠ "manifest.toml" →
      stringContains e.Name "stripe-cli-" = false →
      processEntry decode st e = .ok st) ∧
    (e.Typeflag ≠ tarTypeDir → e.Typeflag ≠ tarTypeReg →
      processEntry decode st e = .error (.unrecognizedType e.Name e.Typeflag)) := by
  refine ⟨?_, ?_, ?_, ?_, ?_⟩
  · intro h; simp [processEntry, h]
  · intro h hname
    simp [processEntry, h, hname, tarTypeReg, tarTypeDir]
  · intro h hname hsub
    simp [processEntry, h, hname, hsub, tarTypeReg, tarTypeDir]
  · intro h hname hsub
    simp [processEntry, h, hname, hsub, tarTypeReg, tarTypeDir]
  · intro hdir hreg
    simp [processEntry, hdir, hreg]

theorem C5_entry_classification_witness :
    processEntry (fun _ => .ok ⟨[]⟩) initScanState ⟨"bin", tarTypeDir, []⟩ =
      .ok initScanState ∧
    processEntry (fun _ => .ok ⟨[⟨"hello", []⟩]⟩) initScanState
        ⟨"manifest.toml", tarTypeReg, [0]⟩ = .ok ⟨⟨[⟨"hello", []⟩]⟩, []⟩ ∧
    processEntry (fun _ => .ok ⟨[]⟩) initScanState
        ⟨"stripe-cli-hello", tarTypeReg, [1]⟩ = .ok ⟨⟨[]⟩, [1]⟩ ∧
    processEntry (fun _ => .ok ⟨[]⟩) initScanState ⟨"README", tarTypeReg, [2]⟩ =
      .ok initScanState ∧
    processEntry (fun _ => .ok ⟨[]⟩) initScanState ⟨"lnk", tarTypeSymlink, []⟩ =
      .error (.unrecognizedType "lnk" tarTypeSymlink) := by
  refine ⟨?_, ?_, ?_, ?_, ?_⟩
  · exact (C5_entry_classification (fun _ => .ok ⟨[]⟩) initScanState
      ⟨"bin", tarTypeDir, []⟩).1 rfl
  · exact (C5_entry_classification (fun _ => .ok ⟨[⟨"hello", []⟩]⟩) initScanState
      ⟨"manifest.toml", tarTypeReg, [0]⟩).2.1 rfl rfl
  · exact (C5_entry_classification (fun _ => .ok ⟨[]⟩) initScanState
      ⟨"stripe-cli-hello", tarTypeReg, [1]⟩).2.2.1 rfl (by decide) (by decide)
  · exact (C5_entry_classification (fun _ => .ok ⟨[]⟩) initScanState
      ⟨"README", tarTypeReg, [2]⟩).2.2.2.1 rfl (by decide) (by decide)
  · exact (C5_entry_classification (fun _ => .ok ⟨[]⟩) initScanState
      ⟨"lnk", tarTypeSymlink, []⟩).2.2.2.2 (by decide) (by decide)

/-- C6: an archive holding an unsupported-type entry (symlink, device,
...) after a cleanly scanned prefix fails with the unrecognized-type
error for that entry, and the persistent state is returned untouched: no
reconciliation, no installed-index update, no binary write — however many
fragment or payload entries the prefix captured. -/
theorem C6_unsupported_entry_aborts (decode : List Nat → Except String PluginList)
    (digestFn : List Nat → Nat) (pre : List TarEntry) (bad : TarEntry)
    (rest : List TarEntry) (st : ConfigState) (sc : ScanState)
    (hpre : scanEntries decode pre initScanState = .ok sc)
    (hdir : bad.Typeflag ≠ tarTypeDir) (hreg : bad.Typeflag ≠ tarTypeReg) :
    extractFromTarball decode digestFn (pre ++ bad :: rest) st =
      (st, .err (.unrecognizedType bad.Name bad.Typeflag)) := by
  have hscan : scanEntries decode (pre ++ bad :: rest) initScanState =
      .error (.unrecognizedType bad.Name bad.Typeflag) := by
    rw [scanEntries_append, hpre]
    simp [scanEntries, processEntry, hdir, hreg]
  simp [extractFromTarball, hscan]

theorem C6_unsupported_entry_aborts_witness :
    extractFromTarball (fun _ => .ok ⟨[⟨"hello", [⟨"1.0.0", 5⟩]⟩]⟩) (fun _ => 5)
        [⟨"manifest.toml", tarTypeReg, [0]⟩, ⟨"stripe-cli-hello", tarTypeReg, [1]⟩,
          ⟨"evil", tarTypeSymlink, []⟩] ⟨none, [], []⟩ =
      (⟨none, [], []⟩, .err (.unrecognizedType "evil" tarTypeSymlink)) := by
  have h := C6_unsupported_entry_aborts (fun _ => .ok ⟨[⟨"hello", [⟨"1.0.0", 5⟩]⟩]⟩)
    (fun _ => 5)
    [⟨"manifest.toml", tarTypeReg, [0]⟩, ⟨"stripe-cli-hello", tarTypeReg, [1]⟩]
    ⟨"evil", tarTypeSymlink, []⟩ [] ⟨none, [], []⟩
    ⟨⟨[⟨"hello", [⟨"1.0.0", 5⟩]⟩]⟩, [1]⟩
    rfl (by decide) (by decide)
  simpa using h

/-! ### Concrete archives used to evaluate the pipeline -/

/-- A two-entry archive: the catalog fragment and one binary payload. -/
def sampleEntries : List TarEntry :=
  [⟨"manifest.toml", tarTypeReg, [0]⟩, ⟨"stripe-cli-hello", tarTypeReg, [1, 2]⟩]

/-- Initial persistent state: no manifest file, nothing installed. -/
def emptyState : ConfigState := ⟨none, [], []⟩

/-- A decoder whose fragment holds one extension carrying two releases. -/
def twoReleaseDecode : List Nat → Except String PluginList :=
  fun _ => .ok ⟨[⟨"hello", [⟨"1.0.0", 5⟩, ⟨"1.1.0", 6⟩]⟩]⟩

/-- A decoder whose fragment holds one extension carrying one release. -/
def oneReleaseDecode : List Nat → Except String PluginList :=
  fun _ => .ok ⟨[⟨"hello", [⟨"1.0.0", 5⟩]⟩]⟩

/-- A decoder whose fragment holds one extension with an empty release
list. -/
def zeroReleaseDecode : List Nat → Except String PluginList :=
  fun _ => .ok ⟨[⟨"hello", []⟩]⟩

/-- A digest function matching the expected sum 5. -/
def matchingDigest : List Nat → Nat := fun _ => 5

/-- A digest function matching no release's expected sum. -/
def mismatchDigest : List Nat → Nat := fun _ => 0

/-- C1 counterexample: this archive's fragment carries one extension with
TWO releases, yet extraction succeeds (outcome `ok`, the release and the
binary are persisted) instead of failing with the malformed-archive
error: the post-scan validation does not check the release count. -/
theorem C1_two_release_archive_accepted :
    extractFromTarball twoReleaseDecode matchingDigest sampleEntries emptyState =
      (⟨some ⟨[⟨"hello", [⟨"1.0.0", 5⟩, ⟨"1.1.0", 6⟩]⟩]⟩, ["hello"],
        [("hello", [1, 2])]⟩, .ok) ∧
    (⟨"hello", [⟨"1.0.0", 5⟩, ⟨"1.1.0", 6⟩]⟩ : Plugin).Releases.length = 2 := by
  constructor
  · rfl
  · rfl

/-- C1 amended: extraction returns `ok` only when the scan succeeded and
its final state holds exactly one plugin in the parsed fragment and a
non-empty captured payload; and whenever the scan succeeds but that
condition fails, extraction returns the
`missing required manifest.toml or plugin in the archive` error with the
state untouched. (Release count and fragment-file count are not
validated.) -/
theorem C1_post_scan_validation (decode : List Nat → Except String PluginList)
    (digestFn : List Nat → Nat) (entries : List TarEntry) (st : ConfigState) :
    ((extractFromTarball decode digestFn entries st).2 = .ok →
      ∃ sc, scanEntries decode entries initScanState = .ok sc ∧
        sc.manifest.Plugins.length = 1 ∧ 0 < sc.pluginData.length) ∧
    (∀ sc, scanEntries decode entries initScanState = .ok sc →
      ¬(sc.manifest.Plugins.length = 1 ∧ 0 < sc.pluginData.length) →
      extractFromTarball decode digestFn entries st =
        (st, .err .missingManifestOrPlugin)) := by
  constructor
  · intro h
    cases hscan : scanEntries decode entries initScanState with
    | error e => simp [extractFromTarball, hscan] at h
    | ok sc =>
      refine ⟨sc, rfl, ?_⟩
      by_cases hcond : sc.manifest.Plugins.length = 1 ∧ 0 < sc.pluginData.length
      · exact hcond
      · simp [extractFromTarball, hscan, hcond] at h
  · intro sc hscan hcond
    simp [extractFromTarball, hscan, hcond]

theorem C1_post_scan_validation_witness :
    extractFromTarball oneReleaseDecode matchingDigest
        [⟨"stripe-cli-hello", tarTypeReg, [1, 2]⟩] emptyState =
      (emptyState, .err .missingManifestOrPlugin) := by
  exact (C1_post_scan_validation oneReleaseDecode matchingDigest
    [⟨"stripe-cli-hello", tarTypeReg, [1, 2]⟩] emptyState).2
    ⟨⟨[]⟩, [1, 2]⟩ rfl (by decide)

/-- C2 counterexample: against an empty local state, extracting a
well-formed archive whose binary fails the integrity check surfaces the
integrity error — yet the catalog manifest now records the failed
release and the installed index records the extension as installed,
because reconciliation runs before checksum verification. -/
theorem C2_checksum_failure_leaves_partial_state :
    extractFromTarball oneReleaseDecode mismatchDigest sampleEntries emptyState =
      (⟨some ⟨[⟨"hello", [⟨"1.0.0", 5⟩]⟩]⟩, ["hello"], []⟩, .err .integrityErr) ∧
    "hello" ∈ (extractFromTarball oneReleaseDecode mismatchDigest sampleEntries
      emptyState).1.installedPlugins := by
  constructor
  · rfl
  · decide

/-- C2 amended: a failure of the checksum-verify-and-save step after a
well-formed archive was extracted surfaces that originating error
verbatim and writes no binary — but the catalog manifest and the
installed index have already been updated with the failed release's
extension (reconciliation precedes verification). -/
theorem C2_checksum_failure_error_and_state
    (decode : List Nat → Except String PluginList) (digestFn : List Nat → Nat)
    (entries : List TarEntry) (st st1 : ConfigState) (sc : ScanState)
    (plugin : Plugin) (r0 : Release) (e : ExtractErr)
    (hscan : scanEntries decode entries initScanState = .ok sc)
    (hcond : sc.manifest.Plugins.length = 1 ∧ 0 < sc.pluginData.length)
    (hhead : sc.manifest.Plugins.head? = some plugin)
    (hadd : addEntryState plugin st = some st1)
    (hr : plugin.Releases.head? = some r0)
    (hver : verifychecksumAndSavePlugin digestFn plugin sc.pluginData
      r0.Version st1 = .error e) :
    extractFromTarball decode digestFn entries st = (st1, .err e) ∧
    st1.binaries = st.binaries ∧
    plugin.Shortname ∈ st1.installedPlugins := by
  have hspec := addEntryState_spec plugin st st1 hadd
  refine ⟨?_, hspec.1, ?_⟩
  · simp [extractFromTarball, hscan, hcond, hhead, hadd, hr, hver]
  · rw [hspec.2]
    exact updateInstalledList_mem plugin.Shortname st.installedPlugins

theorem C2_checksum_failure_error_and_state_witness :
    extractFromTarball oneReleaseDecode mismatchDigest sampleEntries emptyState =
      (⟨some ⟨[⟨"hello", [⟨"1.0.0", 5⟩]⟩]⟩, ["hello"], []⟩, .err .integrityErr) ∧
    ConfigState.binaries ⟨some ⟨[⟨"hello", [⟨"1.0.0", 5⟩]⟩]⟩, ["hello"], []⟩ =
      ConfigState.binaries emptyState ∧
    "hello" ∈ ConfigState.installedPlugins
      ⟨some ⟨[⟨"hello", [⟨"1.0.0", 5⟩]⟩]⟩, ["hello"], []⟩ := by
  have h := C2_checksum_failure_error_and_state oneReleaseDecode mismatchDigest
    sampleEntries emptyState
    ⟨some ⟨[⟨"hello", [⟨"1.0.0", 5⟩]⟩]⟩, ["hello"], []⟩
    ⟨⟨[⟨"hello", [⟨"1.0.0", 5⟩]⟩]⟩, [1, 2]⟩
    ⟨"hello", [⟨"1.0.0", 5⟩]⟩ ⟨"1.0.0", 5⟩ .integrityErr
    rfl (by decide) rfl rfl rfl rfl
  simpa using h

/-- C8: an archive whose fragment holds one extension with an EMPTY
release list and a non-empty payload passes the implemented acceptance
check, reconciliation commits it, and the pipeline then evaluates
`plugin.Releases[0].Version` out of bounds — modelled as the
`indexOutOfRange` outcome (a Go runtime panic), with the manifest and
installed index already written. -/
theorem C8_empty_release_list_out_of_bounds :
    extractFromTarball zeroReleaseDecode matchingDigest sampleEntries emptyState =
      (⟨some ⟨[⟨"hello", []⟩]⟩, ["hello"], []⟩, .indexOutOfRange) ∧
    (⟨"hello", ([] : List Release)⟩ : Plugin).Releases.head? = none := by
  constructor
  · rfl
  · rfl

/-! ## GetPluginList and LookUpPlugin (utilities.go lines 60-103) -/

/-- What one call to `GetPluginList` did: the returned value or error, plus
whether `RefreshPluginManifest` (the remote fetch) was triggered and how
many reads of `plugins.toml` were attempted. -/
structure LoadTrace where
  result : Except String PluginList
  fetched : Bool
  readCount : Nat
  deriving Repr

/-- `GetPluginList`: read `plugins.toml`; when the file does not exist,
run `RefreshPluginManifest` (which on success writes the fetched body) —
propagating its error verbatim when the origin cannot supply the catalog
— and retry the read once; then TOML-decode the bytes, propagating the
decode error verbatim. The remote fetch pipeline is collapsed into
`fetchRemote`: the body it would write, or the error of whichever of its
steps failed. -/
def getPluginList (decode : List Nat → Except String PluginList)
    (fetchRemote : Except String (List Nat)) (store : Option (List Nat)) :
    LoadTrace :=
  match store with
  | none =>
    match fetchRemote with
    | .error e => ⟨.error e, true, 1⟩
    | .ok body =>
      match decode body with
      | .error msg => ⟨.error msg, true, 2⟩
      | .ok pluginList => ⟨.ok pluginList, true, 2⟩
  | some file =>
    match decode file with
    | .error msg => ⟨.error msg, false, 1⟩
    | .ok pluginList => ⟨.ok pluginList, false, 1⟩

/-- The `for _, p := range pluginList.Plugins` loop of `LookUpPlugin`:
return the first plugin whose `Shortname` equals the queried name, or the
`Could not find a plugin named ...` error. -/
def lookUpPluginIn (plugins : List Plugin) (pluginName : String) :
    Except String Plugin :=
  match plugins with
  | [] => .error ("Could not find a plugin named " ++ pluginName)
  | p :: ps =>
    if pluginName = p.Shortname then .ok p
    else lookUpPluginIn ps pluginName

/-- `LookUpPlugin`: load the plugin list, propagating its error, then scan
it by name. -/
def lookUpPlugin (decode : List Nat → Except String PluginList)
    (fetchRemote : Except String (List Nat)) (store : Option (List Nat))
    (pluginName : String) : Except String Plugin :=
  match (getPluginList decode fetchRemote store).result with
  | .error e => .error e
  | .ok pluginList => lookUpPluginIn pluginList.Plugins pluginName

/-- C7: when the local catalog file is absent, loading triggers the
remote fetch and retries the read exactly once (two reads total on a
successful fetch), propagates the fetch error verbatim when the origin
cannot supply a catalog, and propagates the decode error verbatim when
the stored bytes do not deserialize; when the file is present and
well-formed, loading returns the decoded catalog without any remote
fetch. -/
theorem C7_load_bootstrap (decode : List Nat → Except String PluginList)
    (fetchRemote : Except String (List Nat)) (store : Option (List Nat)) :
    (store = none →
      (getPluginList decode fetchRemote store).fetched = true ∧
      (∀ e, fetchRemote = .error e →
        getPluginList decode fetchRemote store = ⟨.error e, true, 1⟩) ∧
      (∀ body, fetchRemote = .ok body →
        (getPluginList decode fetchRemote store).readCount = 2 ∧
        (∀ msg, decode body = .error msg →
          (getPluginList decode fetchRemote store).result = .error msg) ∧
        (∀ pl, decode body = .ok pl →
          (getPluginList decode fetchRemote store).result = .ok pl))) ∧
    (∀ file, store = some file →
      (getPluginList decode fetchRemote store).fetched = false ∧
      (∀ msg, decode file = .error msg →
        (getPluginList decode fetchRemote store).result = .error msg) ∧
      (∀ pl, decode file = .ok pl →
        getPluginList decode fetchRemote store = ⟨.ok pl, false, 1⟩)) := by
  constructor
  · intro hstore
    subst hstore
    refine ⟨?_, ?_, ?_⟩
    · cases fetchRemote with
      | error e => rfl
      | ok body => cases h : decode body <;> simp [getPluginList, h]
    · intro e he; subst he; rfl
    · intro body hb
      subst hb
      refine ⟨?_, ?_, ?_⟩
      · cases h : decode body <;> simp [getPluginList, h]
      · intro msg hm; simp [getPluginList, hm]
      · intro pl hp; simp [getPluginList, hp]
  · intro file hstore
    subst hstore
    refine ⟨?_, ?_, ?_⟩
    · cases h : decode file <;> simp [getPluginList, h]
    · intro msg hm; simp [getPluginList, hm]
    · intro pl hp; simp [getPluginList, hp]

theorem C7_load_bootstrap_witness :
    (getPluginList oneReleaseDecode (.ok [0]) none).readCount = 2 ∧
    (getPluginList oneReleaseDecode (.ok [0]) none).result =
      .ok ⟨[⟨"hello", [⟨"1.0.0", 5⟩]⟩]⟩ ∧
    getPluginList oneReleaseDecode (.error "network down") none =
      ⟨.error "network down", true, 1⟩ ∧
    getPluginList oneReleaseDecode (.ok [0]) (some [3]) =
      ⟨.ok ⟨[⟨"hello", [⟨"1.0.0", 5⟩]⟩]⟩, false, 1⟩ := by
  have habsent := (C7_load_bootstrap oneReleaseDecode (.ok [0]) none).1 rfl
  have hfail := (C7_load_bootstrap oneReleaseDecode (.error "network down") none).1 rfl
  have hpresent := (C7_load_bootstrap oneReleaseDecode (.ok [0]) (some [3])).2 [3] rfl
  refine ⟨(habsent.2.2 [0] rfl).1, (habsent.2.2 [0] rfl).2.2 _ rfl, ?_, ?_⟩
  · exact hfail.2.1 "network down" rfl
  · exact hpresent.2.2 _ rfl

/-- C9: reconciliation updates the installed index with set semantics:
afterwards the index contains the extension's name; when the name was
already present the index is written back unchanged; and the name's
multiplicity in the index is never pushed above its previous value (or
above one when it was absent). -/
theorem C9_installed_index_set_semantics (entry : Plugin) (st st' : ConfigState)
    (h : addEntryState entry st = some st') :
    entry.Shortname ∈ st'.installedPlugins ∧
    (entry.Shortname ∈ st.installedPlugins →
      st'.installedPlugins = st.installedPlugins) ∧
    st'.installedPlugins.count entry.Shortname =
      max (st.installedPlugins.count entry.Shortname) 1 := by
  have hspec := (addEntryState_spec entry st st' h).2
  rw [hspec]
  by_cases hmem : entry.Shortname ∈ st.installedPlugins
  · have hupd : updateInstalledList entry.Shortname st.installedPlugins =
        st.installedPlugins := by
      simp [updateInstalledList, hmem]
    rw [hupd]
    refine ⟨hmem, fun _ => rfl, ?_⟩
    have hcount : 0 < st.installedPlugins.count entry.Shortname :=
      List.count_pos_iff.mpr hmem
    omega
  · have hupd : updateInstalledList entry.Shortname st.installedPlugins =
        st.installedPlugins ++ [entry.Shortname] := by
      simp [updateInstalledList, hmem]
    rw [hupd]
    have hcount0 : st.installedPlugins.count entry.Shortname = 0 :=
      List.count_eq_zero.mpr hmem
    refine ⟨by simp, fun hm => absurd hm hmem, ?_⟩
    rw [List.count_append, hcount0]
    simp

theorem C9_installed_index_set_semantics_witness :
    "hello" ∈ ConfigState.installedPlugins
      ⟨some ⟨[⟨"hello", [⟨"1.0.0", 5⟩]⟩]⟩, ["other", "hello"], []⟩ ∧
    (List.count "hello" ["other", "hello"] = max (List.count "hello" ["other", "hello"]) 1) := by
  have h := C9_installed_index_set_semantics ⟨"hello", [⟨"1.0.0", 5⟩]⟩
    ⟨none, ["other", "hello"], []⟩
    ⟨some ⟨[⟨"hello", [⟨"1.0.0", 5⟩]⟩]⟩, ["other", "hello"], []⟩
    (by decide)
  exact ⟨h.1, by simp⟩

/-- C10: the by-name lookup is the linear first-match scan: it returns
exactly what `List.find?` on shortname equality returns, and when no
plugin matches it fails with the not-found error naming the queried
plugin. -/
theorem C10_lookup_first_match (plugins : List Plugin) (pluginName : String) :
    lookUpPluginIn plugins pluginName =
      match plugins.find? (fun p => pluginName == p.Shortname) with
      | some p => .ok p
      | none => .error ("Could not find a plugin named " ++ pluginName) := by
  induction plugins with
  | nil => rfl
  | cons p ps ih =>
    by_cases h : pluginName = p.Shortname
    · simp [lookUpPluginIn, List.find?, h]
    · have hb : (pluginName == p.Shortname) = false := by
        simp [h]
      simp [lookUpPluginIn, List.find?, h, hb, ih]

end StripeCliPlugins
